import Mathlib

/-!
Shallow embedding of the generator/instantiator subsystem of the faustwasm
repository (source file `FaustDspGenerator.ts`), together with theorems that
settle the specification claims about it.

Modelling conventions:
* `FaustDspFactory.json` holds the already-parsed metadata document
  (`JSON.parse(factory.json)` in the source is deterministic, so the
  serialized string and its parse are identified).
* The JavaScript `Set<string>` static registries (`gWorkletProcessors`) are
  modelled as `List String` with membership tests; `add` conses the key.
* The effect of `context.audioWorklet.addModule` is modelled by an
  environment bit `addModuleOk` on the context (whether the hosting context
  accepts backend-code registration) plus a counter of `addModule`
  invocations in each call's result.
* `async` methods are modelled as pure state-passing functions; a rejected
  promise caught by the source's `try`/`catch` corresponds to
  `addModuleOk = false`.
-/

/-- Whether the character list `pat` occurs as a contiguous sublist of the
second argument. -/
def subOccurs (pat : List Char) : List Char → Bool
  | [] => pat.isEmpty
  | c :: rest => pat.isPrefixOf (c :: rest) || subOccurs pat rest

/-- JavaScript `s.match(pat)` used as a truthy test, with a pattern free of
regex metacharacters: `true` iff `pat` occurs as a substring of `s`. -/
def stringMatch (s pat : String) : Bool :=
  subOccurs pat.data s.data

/-- The parsed metadata document of a compiled DSP module (`FaustDspMeta`):
declared channel counts and the compile-options string holding the
precision flag. -/
structure FaustDspMeta where
  numInputs : Nat
  numOutputs : Nat
  compile_options : String
deriving DecidableEq, Repr

/-- A compiled DSP module (`FaustDspFactory`): the factory handle returned by
the compiler (`cfactory`, a number), the binary module bytes (`code`), the
metadata document (`json`, see the modelling conventions) and the
poly flag. -/
structure FaustDspFactory where
  cfactory : Nat
  code : List Nat
  json : FaustDspMeta
  poly : Bool
deriving DecidableEq, Repr

/-- The hosting execution context (`BaseAudioContext`): its sample rate and
whether `audioWorklet.addModule` succeeds in it (environment-determined;
the source catches the rejection). -/
structure BaseAudioContext where
  sampleRate : Nat
  addModuleOk : Bool
deriving DecidableEq, Repr

/-- An opaque compiled WebAssembly module handle (the poly mixer module). -/
structure WebAssemblyModule where
  id : Nat
deriving DecidableEq, Repr

/-- The external compiler collaborator (`IFaustCompiler`), specified only at
its interface boundary: each operation may fail, returning no factory. -/
structure IFaustCompiler where
  createMonoDSPFactory : String → String → String → Option FaustDspFactory
  createPolyDSPFactory : String → String → String → Option FaustDspFactory
  getAsyncInternalMixerModule : Bool → Option WebAssemblyModule

/-- Modelled from the spec: the Runtime Instance produced by
`FaustWasmInstantiator.createAsyncMonoDSPInstance` (the Module Instantiator
source file is not among the provided sources).  Per spec section 4.1/4.2 it
wraps one instantiated copy of the CompiledModule, whose channel counts are
fixed at instantiation. -/
structure MonoDspInstance where
  factory : FaustDspFactory
deriving DecidableEq, Repr

/-- Modelled from the spec: `FaustWasmInstantiator.createAsyncMonoDSPInstance`
turns one CompiledModule into a bound Runtime Instance. -/
def createAsyncMonoDSPInstance (factory : FaustDspFactory) : MonoDspInstance :=
  ⟨factory⟩

/-- Modelled from the spec: the poly Runtime Instance produced by
`FaustWasmInstantiator.createAsyncPolyDSPInstance` from a voice module, a
mixer module, the voice count and an optional effect module. -/
structure PolyDspInstance where
  voiceFactory : FaustDspFactory
  mixerModule : WebAssemblyModule
  voices : Nat
  effectFactory : Option FaustDspFactory
deriving DecidableEq, Repr

/-- Modelled from the spec: `FaustWasmInstantiator.createAsyncPolyDSPInstance`. -/
def createAsyncPolyDSPInstance (voiceFactory : FaustDspFactory)
    (mixerModule : WebAssemblyModule) (voices : Nat)
    (effectFactory : Option FaustDspFactory) : PolyDspInstance :=
  ⟨voiceFactory, mixerModule, voices, effectFactory⟩

/-- Modelled from the spec: `FaustMonoWebAudioDsp` (its source file is not
among the provided sources) — the mono Runtime Instance wrapper constructed
with `(instance, sampleRate, sampleSize, bufferSize)` (`instance` renamed `dspInstance`, a Lean keyword) exactly as in
`FaustDspGenerator.ts`. -/
structure FaustMonoWebAudioDsp where
  dspInstance : MonoDspInstance
  sampleRate : Nat
  sampleSize : Nat
  bufferSize : Nat
deriving DecidableEq, Repr

/-- Modelled from the spec: a built node's `getNumInputs` equals the
metadata's declared input count, fixed at instantiation. -/
def FaustMonoWebAudioDsp.getNumInputs (d : FaustMonoWebAudioDsp) : Nat :=
  d.dspInstance.factory.json.numInputs

/-- Modelled from the spec: a built node's `getNumOutputs` equals the
metadata's declared output count, fixed at instantiation. -/
def FaustMonoWebAudioDsp.getNumOutputs (d : FaustMonoWebAudioDsp) : Nat :=
  d.dspInstance.factory.json.numOutputs

/-- Modelled from the spec: `FaustPolyWebAudioDsp` — the poly Runtime
Instance wrapper constructed with `(instance, sampleRate, sampleSize,
bufferSize)` exactly as in `FaustDspGenerator.ts`. -/
structure FaustPolyWebAudioDsp where
  dspInstance : PolyDspInstance
  sampleRate : Nat
  sampleSize : Nat
  bufferSize : Nat
deriving DecidableEq, Repr

/-- Modelled from the spec: poly channel counts come from the voice module's
declared metadata counts. -/
def FaustPolyWebAudioDsp.getNumInputs (d : FaustPolyWebAudioDsp) : Nat :=
  d.dspInstance.voiceFactory.json.numInputs

/-- Modelled from the spec: poly channel counts come from the voice module's
declared metadata counts. -/
def FaustPolyWebAudioDsp.getNumOutputs (d : FaustPolyWebAudioDsp) : Nat :=
  d.dspInstance.voiceFactory.json.numOutputs

/-- A mono WebAudio node as built by `FaustMonoDspGenerator.createNode`:
either a script-processor adapter wrapping a directly constructed dsp
(`sp` path), or a `FaustMonoAudioWorkletNode` constructed with
`(context, name, factory, sampleSize)` (worklet path). -/
inductive FaustMonoWebAudioNode where
  | scriptProcessor (dsp : FaustMonoWebAudioDsp) (bufferSize : Nat)
  | audioWorkletNode (processorName : String) (factory : FaustDspFactory)
      (sampleSize : Nat)
deriving DecidableEq, Repr

/-- A poly WebAudio node as built by `FaustPolyDspGenerator.createNode`:
either a script-processor adapter, or a `FaustPolyAudioWorkletNode`
constructed with `(context, name, voiceFactory, mixerModule, voices,
sampleSize, effectFactory)`. -/
inductive FaustPolyWebAudioNode where
  | scriptProcessor (dsp : FaustPolyWebAudioDsp) (bufferSize : Nat)
  | audioWorkletNode (processorName : String) (voiceFactory : FaustDspFactory)
      (mixerModule : WebAssemblyModule) (voices : Nat) (sampleSize : Nat)
      (effectFactory : Option FaustDspFactory)
deriving DecidableEq, Repr

/-- The sample size carried by a built mono node (the `sampleSize` passed to
its constructor in the source). -/
def FaustMonoWebAudioNode.sampleSize : FaustMonoWebAudioNode → Nat
  | .scriptProcessor dsp _ => dsp.sampleSize
  | .audioWorkletNode _ _ s => s

/-- The sample size carried by a built poly node. -/
def FaustPolyWebAudioNode.sampleSize : FaustPolyWebAudioNode → Nat
  | .scriptProcessor dsp _ => dsp.sampleSize
  | .audioWorkletNode _ _ _ _ s _ => s

/-- Modelled from the spec: a built mono node's `getNumInputs`. -/
def FaustMonoWebAudioNode.getNumInputs : FaustMonoWebAudioNode → Nat
  | .scriptProcessor dsp _ => dsp.getNumInputs
  | .audioWorkletNode _ factory _ => factory.json.numInputs

/-- Modelled from the spec: a built mono node's `getNumOutputs`. -/
def FaustMonoWebAudioNode.getNumOutputs : FaustMonoWebAudioNode → Nat
  | .scriptProcessor dsp _ => dsp.getNumOutputs
  | .audioWorkletNode _ factory _ => factory.json.numOutputs

/-- Modelled from the spec: a built poly node's `getNumInputs`. -/
def FaustPolyWebAudioNode.getNumInputs : FaustPolyWebAudioNode → Nat
  | .scriptProcessor dsp _ => dsp.getNumInputs
  | .audioWorkletNode _ voiceFactory _ _ _ _ => voiceFactory.json.numInputs

/-- Modelled from the spec: a built poly node's `getNumOutputs`. -/
def FaustPolyWebAudioNode.getNumOutputs : FaustPolyWebAudioNode → Nat
  | .scriptProcessor dsp _ => dsp.getNumOutputs
  | .audioWorkletNode _ voiceFactory _ _ _ _ => voiceFactory.json.numOutputs

/-- Observable outcome of one `createNode`-style call: the returned node
(`none` models the source's `return null`), the worklet registry after the
call, and the number of `addModule` invocations made during the call. -/
structure CreateNodeResult (α : Type) where
  node : Option α
  gWorkletProcessors : List String
  addModuleCalls : Nat
deriving DecidableEq, Repr

/-- The mono generator object: `fFactory` is set by `compileNode` and read by
`getFactory`. -/
structure FaustMonoDspGenerator where
  fFactory : Option FaustDspFactory
deriving Repr

/-- `new FaustMonoDspGenerator()`: the constructor sets `fFactory` to null. -/
def FaustMonoDspGenerator.init : FaustMonoDspGenerator :=
  ⟨none⟩

/-- `FaustMonoDspGenerator.createNode(context, nameIn, factory, sp, bufferSize)`
(source lines 154-202).  `gWorkletProcessors` is the static per-class
registry of already-registered worklet-processor keys.  On the worklet path
(`sp` falsy) the key is `nameIn + factory.cfactory.toString()`; if absent,
backend processor code is synthesized and `addModule` is attempted: on
success the key is recorded and the `FaustMonoAudioWorkletNode` is
constructed, on failure (caught exception) the call returns null. -/
def FaustMonoDspGenerator.createNode (context : BaseAudioContext)
    (gWorkletProcessors : List String) (nameIn : String)
    (factory : FaustDspFactory) (sp : Bool) (bufferSize : Nat) :
    CreateNodeResult FaustMonoWebAudioNode :=
  let JSONObj : FaustDspMeta := factory.json
  let sampleSize := if stringMatch JSONObj.compile_options "-double" then 8 else 4
  if sp then
    let dspInstance := createAsyncMonoDSPInstance factory
    let monoDsp : FaustMonoWebAudioDsp :=
      ⟨dspInstance, context.sampleRate, sampleSize, bufferSize⟩
    { node := some (.scriptProcessor monoDsp bufferSize),
      gWorkletProcessors := gWorkletProcessors,
      addModuleCalls := 0 }
  else
    let name := nameIn ++ toString factory.cfactory
    if name ∈ gWorkletProcessors then
      { node := some (.audioWorkletNode name factory sampleSize),
        gWorkletProcessors := gWorkletProcessors,
        addModuleCalls := 0 }
    else if context.addModuleOk then
      { node := some (.audioWorkletNode name factory sampleSize),
        gWorkletProcessors := name :: gWorkletProcessors,
        addModuleCalls := 1 }
    else
      { node := none,
        gWorkletProcessors := gWorkletProcessors,
        addModuleCalls := 1 }

/-- `FaustMonoDspGenerator.compileNode` (source lines 150-153): assigns
`this.fFactory` from the compiler and, when a factory was produced, calls
`createNode` on it; otherwise returns null. -/
def FaustMonoDspGenerator.compileNode (self : FaustMonoDspGenerator)
    (context : BaseAudioContext) (gWorkletProcessors : List String)
    (name : String) (compiler : IFaustCompiler) (code args : String)
    (sp : Bool) (bufferSize : Nat) :
    FaustMonoDspGenerator × CreateNodeResult FaustMonoWebAudioNode :=
  let fFactory := compiler.createMonoDSPFactory name code args
  let updated : FaustMonoDspGenerator := { self with fFactory := fFactory }
  match fFactory with
  | some factory =>
      (updated,
        FaustMonoDspGenerator.createNode context gWorkletProcessors name factory
          sp bufferSize)
  | none =>
      (updated,
        { node := none,
          gWorkletProcessors := gWorkletProcessors,
          addModuleCalls := 0 })

/-- `FaustMonoDspGenerator.getFactory` (source lines 203-205). -/
def FaustMonoDspGenerator.getFactory (self : FaustMonoDspGenerator) :
    Option FaustDspFactory :=
  self.fFactory

/-- The offline processor built by `createOfflineProcessor`, holding the
directly constructed mono dsp and the buffer size. -/
structure FaustOfflineProcessor where
  monoDsp : FaustMonoWebAudioDsp
  bufferSize : Nat
deriving DecidableEq, Repr

/-- `FaustMonoDspGenerator.createOfflineProcessor` (source lines 206-212). -/
def FaustMonoDspGenerator.createOfflineProcessor (factory : FaustDspFactory)
    (sampleRate : Nat) (bufferSize : Nat) : FaustOfflineProcessor :=
  let dspInstance := createAsyncMonoDSPInstance factory
  let JSONObj : FaustDspMeta := factory.json
  let sampleSize := if stringMatch JSONObj.compile_options "-double" then 8 else 4
  let monoDsp : FaustMonoWebAudioDsp := ⟨dspInstance, sampleRate, sampleSize, bufferSize⟩
  ⟨monoDsp, bufferSize⟩

/-- The poly generator object: `fVoiceFactory` and `fEffectFactory` are set
to null by the constructor (and, as proved below, never reassigned). -/
structure FaustPolyDspGenerator where
  fVoiceFactory : Option FaustDspFactory
  fEffectFactory : Option FaustDspFactory
deriving Repr

/-- `new FaustPolyDspGenerator()`: the constructor nulls both fields. -/
def FaustPolyDspGenerator.init : FaustPolyDspGenerator :=
  ⟨none, none⟩

/-- `FaustPolyDspGenerator.createNode(context, nameIn, voiceFactory,
mixerModule, voices, sp, effectFactory, bufferSize)` (source lines 255-314).
On the worklet path the key is
`nameIn + voiceFactory.cfactory.toString() + "_poly"`. -/
def FaustPolyDspGenerator.createNode (context : BaseAudioContext)
    (gWorkletProcessors : List String) (nameIn : String)
    (voiceFactory : FaustDspFactory) (mixerModule : WebAssemblyModule)
    (voices : Nat) (sp : Bool) (effectFactory : Option FaustDspFactory)
    (bufferSize : Nat) : CreateNodeResult FaustPolyWebAudioNode :=
  let JSONObj : FaustDspMeta := voiceFactory.json
  let sampleSize := if stringMatch JSONObj.compile_options "-double" then 8 else 4
  if sp then
    let dspInstance := createAsyncPolyDSPInstance voiceFactory mixerModule voices effectFactory
    let polyDsp : FaustPolyWebAudioDsp :=
      ⟨dspInstance, context.sampleRate, sampleSize, bufferSize⟩
    { node := some (.scriptProcessor polyDsp bufferSize),
      gWorkletProcessors := gWorkletProcessors,
      addModuleCalls := 0 }
  else
    let name := nameIn ++ toString voiceFactory.cfactory ++ "_poly"
    if name ∈ gWorkletProcessors then
      { node := some (.audioWorkletNode name voiceFactory mixerModule voices
          sampleSize effectFactory),
        gWorkletProcessors := gWorkletProcessors,
        addModuleCalls := 0 }
    else if context.addModuleOk then
      { node := some (.audioWorkletNode name voiceFactory mixerModule voices
          sampleSize effectFactory),
        gWorkletProcessors := name :: gWorkletProcessors,
        addModuleCalls := 1 }
    else
      { node := none,
        gWorkletProcessors := gWorkletProcessors,
        addModuleCalls := 1 }

/-- JavaScript `effectCode || defaultTemplate`: the default is used when
`effectCode` is null/undefined or the empty string (both falsy). -/
def jsOrElse (s : Option String) (d : String) : String :=
  match s with
  | some v => if v.isEmpty then d else v
  | none => d

/-- The default effect DSP template built from the voice DSP code
(source lines 239-243). -/
def polyDefaultEffectCode (dspCode : String) : String :=
  "\nadapt(1,1) = _; adapt(2,2) = _,_; adapt(1,2) = _ <: _,_; adapt(2,1) = _,_ :> _;\nadaptor(F,G) = adapt(outputs(F),inputs(G));\ndsp_code = environment\x7b" ++
    dspCode ++
    "\x7d;\nprocess = adaptor(dsp_code.process, dsp_code.effect) : dsp_code.effect;"

/-- `FaustPolyDspGenerator.compileNode` (source lines 227-254): compiles the
voice DSP (null on failure), then the effect DSP (failure tolerated), loads
the mixer module for the voice factory's precision (null on failure), and
delegates to `createNode` passing `effectFactory || undefined`.  It never
assigns `this.fVoiceFactory` or `this.fEffectFactory`. -/
def FaustPolyDspGenerator.compileNode (self : FaustPolyDspGenerator)
    (context : BaseAudioContext) (gWorkletProcessors : List String)
    (name : String) (compiler : IFaustCompiler) (dspCode : String)
    (effectCode : Option String) (args : String) (voices : Nat)
    (sp : Bool) (bufferSize : Nat) :
    FaustPolyDspGenerator × CreateNodeResult FaustPolyWebAudioNode :=
  let voiceDsp := dspCode
  let effect_dsp := jsOrElse effectCode (polyDefaultEffectCode dspCode)
  match compiler.createPolyDSPFactory name voiceDsp args with
  | none =>
      (self,
        { node := none,
          gWorkletProcessors := gWorkletProcessors,
          addModuleCalls := 0 })
  | some voiceFactory =>
      let effectFactory := compiler.createPolyDSPFactory name effect_dsp args
      let JSONObj : FaustDspMeta := voiceFactory.json
      let isDouble := stringMatch JSONObj.compile_options "-double"
      match compiler.getAsyncInternalMixerModule isDouble with
      | none =>
          (self,
            { node := none,
              gWorkletProcessors := gWorkletProcessors,
              addModuleCalls := 0 })
      | some mixerModule =>
          (self,
            FaustPolyDspGenerator.createNode context gWorkletProcessors name
              voiceFactory mixerModule voices sp effectFactory bufferSize)

/-- `FaustPolyDspGenerator.getVoiceFactory` (source lines 315-317). -/
def FaustPolyDspGenerator.getVoiceFactory (self : FaustPolyDspGenerator) :
    Option FaustDspFactory :=
  self.fVoiceFactory

/-- `FaustPolyDspGenerator.getEffectFactory` (source lines 318-320). -/
def FaustPolyDspGenerator.getEffectFactory (self : FaustPolyDspGenerator) :
    Option FaustDspFactory :=
  self.fEffectFactory

/-- One call on a `FaustPolyDspGenerator` object: either `compileNode` or
`createNode`, with its full argument list (used to state invariants over
arbitrary call sequences). -/
inductive PolyOp where
  | compile (context : BaseAudioContext) (name : String)
      (compiler : IFaustCompiler) (dspCode : String)
      (effectCode : Option String) (args : String) (voices : Nat)
      (sp : Bool) (bufferSize : Nat)
  | create (context : BaseAudioContext) (name : String)
      (voiceFactory : FaustDspFactory) (mixerModule : WebAssemblyModule)
      (voices : Nat) (sp : Bool) (effectFactory : Option FaustDspFactory)
      (bufferSize : Nat)

/-- Run one `PolyOp` on the pair (generator object, static worklet
registry).  `createNode` reads no instance field, so it leaves the object
unchanged; `compileNode` returns the object it produced. -/
def runPolyOp (st : FaustPolyDspGenerator × List String) (op : PolyOp) :
    FaustPolyDspGenerator × List String :=
  match op with
  | .compile context name compiler dspCode effectCode args voices sp bufferSize =>
      let r := st.1.compileNode context st.2 name compiler dspCode effectCode
        args voices sp bufferSize
      (r.1, r.2.gWorkletProcessors)
  | .create context name voiceFactory mixerModule voices sp effectFactory bufferSize =>
      let r := FaustPolyDspGenerator.createNode context st.2 name voiceFactory
        mixerModule voices sp effectFactory bufferSize
      (st.1, r.gWorkletProcessors)

/-- Run a sequence of calls on a `FaustPolyDspGenerator` object. -/
def runPolyOps (ops : List PolyOp) (st : FaustPolyDspGenerator × List String) :
    FaustPolyDspGenerator × List String :=
  ops.foldl runPolyOp st

/-- The effect factory carried by a built poly node (the `effectFactory`
passed to its constructor, or held by its instance on the `sp` path). -/
def FaustPolyWebAudioNode.effectFactoryOf : FaustPolyWebAudioNode → Option FaustDspFactory
  | .scriptProcessor dsp _ => dsp.dspInstance.effectFactory
  | .audioWorkletNode _ _ _ _ _ effectFactory => effectFactory

/-- Sample metadata without the `-double` precision flag. -/
def metaStereo : FaustDspMeta :=
  ⟨1, 2, "-lang wasm-ib -ct 1 -es 1"⟩

/-- Sample metadata with the `-double` precision flag. -/
def metaDouble : FaustDspMeta :=
  ⟨2, 2, "-lang wasm-ib -double -ct 1"⟩

/-- A sample compiled module with factory handle 1. -/
def factoryA : FaustDspFactory :=
  ⟨1, [0, 97, 115, 109], metaStereo, false⟩

/-- A sample compiled module that is bit-identical to `factoryA` in binary
(`code`) and metadata (`json`) but carries a different factory handle. -/
def factoryB : FaustDspFactory :=
  ⟨2, [0, 97, 115, 109], metaStereo, false⟩

/-- A sample compiled module with the `-double` flag set. -/
def factoryD : FaustDspFactory :=
  ⟨3, [0, 97, 115, 109], metaDouble, false⟩

/-- A sample mixer module handle. -/
def mixerM : WebAssemblyModule :=
  ⟨7⟩

/-- A context that accepts `addModule` registration. -/
def ctxOK : BaseAudioContext :=
  ⟨44100, true⟩

/-- A context that rejects `addModule` registration. -/
def ctxBad : BaseAudioContext :=
  ⟨44100, false⟩

/-- A compiler on which every operation fails. -/
def compilerFail : IFaustCompiler :=
  ⟨fun _ _ _ => none, fun _ _ _ => none, fun _ => none⟩

/-- A compiler whose poly factory compilation and mixer loading succeed. -/
def compilerPolyOK : IFaustCompiler :=
  ⟨fun _ _ _ => none, fun _ _ _ => some factoryA, fun _ => some mixerM⟩

/-- A compiler whose poly voice compilation succeeds with `factoryA` but
whose effect compilation fails (it succeeds only on the exact voice code),
and whose mixer loading succeeds. -/
def compilerEffectFails : IFaustCompiler :=
  ⟨fun _ _ _ => none,
   fun _ code _ => if code = "process = _;" then some factoryA else none,
   fun _ => some mixerM⟩

/-- Claim C1: for every execution context and every worklet-backend build key
(DSP name concatenated with the factory handle), backend processor code is
registered at most once: a `createNode` call (sp falsy) whose key is not yet
in the generator class's static registry performs one `addModule` and, on
success, records the key; every later call with the same key skips
registration entirely (zero `addModule` calls, registry untouched) and
proceeds directly to constructing the `AudioWorkletNode`.  Both for the mono
and the poly generator. -/
theorem C1_worklet_registration_at_most_once
    (context : BaseAudioContext) (reg : List String) (nameIn : String)
    (factory voiceFactory : FaustDspFactory) (mixerModule : WebAssemblyModule)
    (voices : Nat) (effectFactory : Option FaustDspFactory) (bufferSize : Nat) :
    ((nameIn ++ toString factory.cfactory) ∈ reg →
      (FaustMonoDspGenerator.createNode context reg nameIn factory false bufferSize).addModuleCalls = 0 ∧
      (FaustMonoDspGenerator.createNode context reg nameIn factory false bufferSize).gWorkletProcessors = reg ∧
      (FaustMonoDspGenerator.createNode context reg nameIn factory false bufferSize).node =
        some (.audioWorkletNode (nameIn ++ toString factory.cfactory) factory
          (if stringMatch factory.json.compile_options "-double" then 8 else 4))) ∧
    ((nameIn ++ toString factory.cfactory) ∉ reg →
      (FaustMonoDspGenerator.createNode context reg nameIn factory false bufferSize).addModuleCalls = 1 ∧
      (context.addModuleOk = true →
        (FaustMonoDspGenerator.createNode context reg nameIn factory false bufferSize).gWorkletProcessors =
          (nameIn ++ toString factory.cfactory) :: reg)) ∧
    ((nameIn ++ toString voiceFactory.cfactory ++ "_poly") ∈ reg →
      (FaustPolyDspGenerator.createNode context reg nameIn voiceFactory mixerModule voices false effectFactory bufferSize).addModuleCalls = 0 ∧
      (FaustPolyDspGenerator.createNode context reg nameIn voiceFactory mixerModule voices false effectFactory bufferSize).gWorkletProcessors = reg ∧
      (FaustPolyDspGenerator.createNode context reg nameIn voiceFactory mixerModule voices false effectFactory bufferSize).node =
        some (.audioWorkletNode (nameIn ++ toString voiceFactory.cfactory ++ "_poly") voiceFactory
          mixerModule voices
          (if stringMatch voiceFactory.json.compile_options "-double" then 8 else 4) effectFactory)) ∧
    ((nameIn ++ toString voiceFactory.cfactory ++ "_poly") ∉ reg →
      (FaustPolyDspGenerator.createNode context reg nameIn voiceFactory mixerModule voices false effectFactory bufferSize).addModuleCalls = 1 ∧
      (context.addModuleOk = true →
        (FaustPolyDspGenerator.createNode context reg nameIn voiceFactory mixerModule voices false effectFactory bufferSize).gWorkletProcessors =
          (nameIn ++ toString voiceFactory.cfactory ++ "_poly") :: reg)) := by
  refine ⟨?_, ?_, ?_, ?_⟩
  · intro h
    simp [FaustMonoDspGenerator.createNode, h]
  · intro h
    constructor
    · by_cases hok : context.addModuleOk = true <;>
        simp [FaustMonoDspGenerator.createNode, h, hok]
    · intro hok
      simp [FaustMonoDspGenerator.createNode, h, hok]
  · intro h
    simp [FaustPolyDspGenerator.createNode, h]
  · intro h
    constructor
    · by_cases hok : context.addModuleOk = true <;>
        simp [FaustPolyDspGenerator.createNode, h, hok]
    · intro hok
      simp [FaustPolyDspGenerator.createNode, h, hok]

/-- Concrete witness for C1: with `factoryA` (handle 1) and registry
`["osc1"]` a mono build is a cache hit making no `addModule` call, while
with the same registry a first-time poly build makes one call. -/
theorem C1_witness :
    ("osc" ++ toString factoryA.cfactory) ∈ ["osc1"] ∧
    (FaustMonoDspGenerator.createNode ctxOK ["osc1"] "osc" factoryA false 1024).addModuleCalls = 0 ∧
    ("osc" ++ toString factoryA.cfactory ++ "_poly") ∉ ["osc1"] ∧
    (FaustPolyDspGenerator.createNode ctxOK ["osc1"] "osc" factoryA mixerM 8 false none 1024).addModuleCalls = 1 :=
  ⟨by decide,
   ((C1_worklet_registration_at_most_once ctxOK ["osc1"] "osc" factoryA factoryA
      mixerM 8 none 1024).1 (by decide)).1,
   by decide,
   ((C1_worklet_registration_at_most_once ctxOK ["osc1"] "osc" factoryA factoryA
      mixerM 8 none 1024).2.2.2 (by decide)).1⟩

/-- Counterexample to claim C2: `factoryA` and `factoryB` have bit-identical
binary (`code`) and metadata (`json`) but distinct factory handles; building
a worklet-backend mono node from each under the same name registers backend
code twice in total — the second build is not a cache hit, because the cache
key is the DSP name concatenated with the factory handle, not a content
fingerprint. -/
theorem C2_counterexample :
    factoryA.code = factoryB.code ∧ factoryA.json = factoryB.json ∧
    ¬ ((FaustMonoDspGenerator.createNode ctxOK [] "osc" factoryA false 1024).addModuleCalls +
       (FaustMonoDspGenerator.createNode ctxOK
         (FaustMonoDspGenerator.createNode ctxOK [] "osc" factoryA false 1024).gWorkletProcessors
         "osc" factoryB false 1024).addModuleCalls = 1) ∧
    (FaustMonoDspGenerator.createNode ctxOK
      (FaustMonoDspGenerator.createNode ctxOK [] "osc" factoryA false 1024).gWorkletProcessors
      "osc" factoryB false 1024).addModuleCalls = 1 := by
  decide

/-- Claim C2 amended: the registration-cache key is the DSP name concatenated
with the factory handle (`cfactory`), not a content fingerprint; two
worklet-backend builds under the same name register backend code exactly
once in total when the two factories share the same factory handle (the
second build is then a cache hit performing no registration).  Mono and poly
(the poly key carries a `_poly` suffix). -/
theorem C2_amended_cache_key_is_name_and_handle
    (context : BaseAudioContext) (reg : List String) (nameIn : String)
    (f1 f2 : FaustDspFactory) (mixerModule : WebAssemblyModule) (voices : Nat)
    (effectFactory : Option FaustDspFactory) (bufferSize : Nat)
    (hcf : f1.cfactory = f2.cfactory) (hok : context.addModuleOk = true) :
    ((nameIn ++ toString f1.cfactory) ∉ reg →
      (FaustMonoDspGenerator.createNode context reg nameIn f1 false bufferSize).addModuleCalls = 1 ∧
      (FaustMonoDspGenerator.createNode context
        (FaustMonoDspGenerator.createNode context reg nameIn f1 false bufferSize).gWorkletProcessors
        nameIn f2 false bufferSize).addModuleCalls = 0) ∧
    ((nameIn ++ toString f1.cfactory ++ "_poly") ∉ reg →
      (FaustPolyDspGenerator.createNode context reg nameIn f1 mixerModule voices false effectFactory bufferSize).addModuleCalls = 1 ∧
      (FaustPolyDspGenerator.createNode context
        (FaustPolyDspGenerator.createNode context reg nameIn f1 mixerModule voices false effectFactory bufferSize).gWorkletProcessors
        nameIn f2 mixerModule voices false effectFactory bufferSize).addModuleCalls = 0) := by
  constructor
  · intro h
    constructor
    · simp [FaustMonoDspGenerator.createNode, h, hok]
    · simp [FaustMonoDspGenerator.createNode, h, hok, ← hcf]
  · intro h
    constructor
    · simp [FaustPolyDspGenerator.createNode, h, hok]
    · simp [FaustPolyDspGenerator.createNode, h, hok, ← hcf]

/-- Concrete witness for the amended C2: two factories sharing handle 1
(`factoryA` twice) register once in total on an empty registry. -/
theorem C2_witness :
    factoryA.cfactory = factoryA.cfactory ∧ ctxOK.addModuleOk = true ∧
    ("osc" ++ toString factoryA.cfactory) ∉ ([] : List String) ∧
    (FaustMonoDspGenerator.createNode ctxOK [] "osc" factoryA false 1024).addModuleCalls = 1 ∧
    (FaustMonoDspGenerator.createNode ctxOK
      (FaustMonoDspGenerator.createNode ctxOK [] "osc" factoryA false 1024).gWorkletProcessors
      "osc" factoryA false 1024).addModuleCalls = 0 :=
  ⟨rfl, rfl, by decide,
   ((C2_amended_cache_key_is_name_and_handle ctxOK [] "osc" factoryA factoryA
      mixerM 8 none 1024 rfl rfl).1 (by decide)).1,
   ((C2_amended_cache_key_is_name_and_handle ctxOK [] "osc" factoryA factoryA
      mixerM 8 none 1024 rfl rfl).1 (by decide)).2⟩

/-- Claim C3: on the worklet path (sp falsy), when the hosting context
rejects backend-code registration (`addModule` throws), `createNode` returns
null and makes exactly one registration attempt within the call (no retry).
Mono and poly. -/
theorem C3_registration_failure_returns_null
    (context : BaseAudioContext) (reg : List String) (nameIn : String)
    (factory voiceFactory : FaustDspFactory) (mixerModule : WebAssemblyModule)
    (voices : Nat) (effectFactory : Option FaustDspFactory) (bufferSize : Nat)
    (hok : context.addModuleOk = false) :
    ((nameIn ++ toString factory.cfactory) ∉ reg →
      (FaustMonoDspGenerator.createNode context reg nameIn factory false bufferSize).node = none ∧
      (FaustMonoDspGenerator.createNode context reg nameIn factory false bufferSize).addModuleCalls = 1) ∧
    ((nameIn ++ toString voiceFactory.cfactory ++ "_poly") ∉ reg →
      (FaustPolyDspGenerator.createNode context reg nameIn voiceFactory mixerModule voices false effectFactory bufferSize).node = none ∧
      (FaustPolyDspGenerator.createNode context reg nameIn voiceFactory mixerModule voices false effectFactory bufferSize).addModuleCalls = 1) := by
  constructor
  · intro h
    simp [FaustMonoDspGenerator.createNode, h, hok]
  · intro h
    simp [FaustPolyDspGenerator.createNode, h, hok]

/-- Concrete witness for C3: against `ctxBad` a first-time mono build returns
null after a single registration attempt. -/
theorem C3_witness :
    ctxBad.addModuleOk = false ∧
    ("osc" ++ toString factoryA.cfactory) ∉ ([] : List String) ∧
    (FaustMonoDspGenerator.createNode ctxBad [] "osc" factoryA false 1024).node = none ∧
    (FaustMonoDspGenerator.createNode ctxBad [] "osc" factoryA false 1024).addModuleCalls = 1 :=
  ⟨rfl, by decide,
   ((C3_registration_failure_returns_null ctxBad [] "osc" factoryA factoryA
      mixerM 8 none 1024 rfl).1 (by decide)).1,
   ((C3_registration_failure_returns_null ctxBad [] "osc" factoryA factoryA
      mixerM 8 none 1024 rfl).1 (by decide)).2⟩

/-- Claim C4: when registration fails the static registry is left unchanged
(the key is not recorded), so a fresh build attempt with the same module
attempts registration again; the key is recorded only after `addModule`
completes successfully.  Mono and poly. -/
theorem C4_failed_registration_leaves_cache_unchanged
    (context : BaseAudioContext) (reg : List String) (nameIn : String)
    (factory voiceFactory : FaustDspFactory) (mixerModule : WebAssemblyModule)
    (voices : Nat) (effectFactory : Option FaustDspFactory) (bufferSize : Nat) :
    ((nameIn ++ toString factory.cfactory) ∉ reg → context.addModuleOk = false →
      (FaustMonoDspGenerator.createNode context reg nameIn factory false bufferSize).gWorkletProcessors = reg ∧
      (FaustMonoDspGenerator.createNode context
        (FaustMonoDspGenerator.createNode context reg nameIn factory false bufferSize).gWorkletProcessors
        nameIn factory false bufferSize).addModuleCalls = 1) ∧
    ((nameIn ++ toString factory.cfactory) ∉ reg → context.addModuleOk = true →
      (FaustMonoDspGenerator.createNode context reg nameIn factory false bufferSize).gWorkletProcessors =
        (nameIn ++ toString factory.cfactory) :: reg) ∧
    ((nameIn ++ toString voiceFactory.cfactory ++ "_poly") ∉ reg → context.addModuleOk = false →
      (FaustPolyDspGenerator.createNode context reg nameIn voiceFactory mixerModule voices false effectFactory bufferSize).gWorkletProcessors = reg ∧
      (FaustPolyDspGenerator.createNode context
        (FaustPolyDspGenerator.createNode context reg nameIn voiceFactory mixerModule voices false effectFactory bufferSize).gWorkletProcessors
        nameIn voiceFactory mixerModule voices false effectFactory bufferSize).addModuleCalls = 1) ∧
    ((nameIn ++ toString voiceFactory.cfactory ++ "_poly") ∉ reg → context.addModuleOk = true →
      (FaustPolyDspGenerator.createNode context reg nameIn voiceFactory mixerModule voices false effectFactory bufferSize).gWorkletProcessors =
        (nameIn ++ toString voiceFactory.cfactory ++ "_poly") :: reg) := by
  refine ⟨?_, ?_, ?_, ?_⟩
  · intro h hok
    simp [FaustMonoDspGenerator.createNode, h, hok]
  · intro h hok
    simp [FaustMonoDspGenerator.createNode, h, hok]
  · intro h hok
    simp [FaustPolyDspGenerator.createNode, h, hok]
  · intro h hok
    simp [FaustPolyDspGenerator.createNode, h, hok]

/-- Concrete witness for C4: a failed registration against `ctxBad` leaves
the empty registry empty and the immediate retry attempts registration
again; against `ctxOK` the key is recorded. -/
theorem C4_witness :
    ("osc" ++ toString factoryA.cfactory) ∉ ([] : List String) ∧
    ctxBad.addModuleOk = false ∧ ctxOK.addModuleOk = true ∧
    (FaustMonoDspGenerator.createNode ctxBad [] "osc" factoryA false 1024).gWorkletProcessors = [] ∧
    (FaustMonoDspGenerator.createNode ctxOK [] "osc" factoryA false 1024).gWorkletProcessors =
      ("osc" ++ toString factoryA.cfactory) :: [] :=
  ⟨by decide, rfl, rfl,
   ((C4_failed_registration_leaves_cache_unchanged ctxBad [] "osc" factoryA factoryA
      mixerM 8 none 1024).1 (by decide) rfl).1,
   (C4_failed_registration_leaves_cache_unchanged ctxOK [] "osc" factoryA factoryA
      mixerM 8 none 1024).2.1 (by decide) rfl⟩

/-- Claim C5: the generator resolves the sample width to 8 bytes when the
factory metadata's `compile_options` string contains `-double`
(`stringMatch` is substring occurrence) and to 4 bytes otherwise, and this
resolved size is the one carried by every node and processor it constructs:
mono `createNode` (both paths), poly `createNode` (both paths), and
`createOfflineProcessor`. -/
theorem C5_sample_size_resolution
    (context : BaseAudioContext) (reg : List String) (nameIn : String)
    (factory voiceFactory : FaustDspFactory) (mixerModule : WebAssemblyModule)
    (voices : Nat) (effectFactory : Option FaustDspFactory)
    (sp : Bool) (bufferSize sampleRate : Nat) :
    (∀ node, (FaustMonoDspGenerator.createNode context reg nameIn factory sp bufferSize).node = some node →
      node.sampleSize = if stringMatch factory.json.compile_options "-double" then 8 else 4) ∧
    (∀ node, (FaustPolyDspGenerator.createNode context reg nameIn voiceFactory mixerModule voices sp effectFactory bufferSize).node = some node →
      node.sampleSize = if stringMatch voiceFactory.json.compile_options "-double" then 8 else 4) ∧
    (FaustMonoDspGenerator.createOfflineProcessor factory sampleRate bufferSize).monoDsp.sampleSize =
      (if stringMatch factory.json.compile_options "-double" then 8 else 4) := by
  refine ⟨?_, ?_, ?_⟩
  · intro node hnode
    cases sp with
    | true =>
        simp [FaustMonoDspGenerator.createNode] at hnode
        subst hnode
        simp [FaustMonoWebAudioNode.sampleSize]
    | false =>
        by_cases h : (nameIn ++ toString factory.cfactory) ∈ reg
        · simp [FaustMonoDspGenerator.createNode, h] at hnode
          subst hnode
          simp [FaustMonoWebAudioNode.sampleSize]
        · by_cases hok : context.addModuleOk = true
          · simp [FaustMonoDspGenerator.createNode, h, hok] at hnode
            subst hnode
            simp [FaustMonoWebAudioNode.sampleSize]
          · simp [FaustMonoDspGenerator.createNode, h, hok] at hnode
  · intro node hnode
    cases sp with
    | true =>
        simp [FaustPolyDspGenerator.createNode] at hnode
        subst hnode
        simp [FaustPolyWebAudioNode.sampleSize]
    | false =>
        by_cases h : (nameIn ++ toString voiceFactory.cfactory ++ "_poly") ∈ reg
        · simp [FaustPolyDspGenerator.createNode, h] at hnode
          subst hnode
          simp [FaustPolyWebAudioNode.sampleSize]
        · by_cases hok : context.addModuleOk = true
          · simp [FaustPolyDspGenerator.createNode, h, hok] at hnode
            subst hnode
            simp [FaustPolyWebAudioNode.sampleSize]
          · simp [FaustPolyDspGenerator.createNode, h, hok] at hnode
  · simp [FaustMonoDspGenerator.createOfflineProcessor]

/-- Concrete witness for C5: a `-double` factory yields a worklet node of
sample size 8, a single-precision factory an offline processor of size 4. -/
theorem C5_witness :
    (FaustMonoDspGenerator.createNode ctxOK [] "osc" factoryD false 1024).node =
      some (.audioWorkletNode "osc3" factoryD 8) ∧
    (FaustMonoWebAudioNode.audioWorkletNode "osc3" factoryD 8).sampleSize =
      (if stringMatch factoryD.json.compile_options "-double" then 8 else 4) ∧
    (FaustMonoDspGenerator.createOfflineProcessor factoryA 48000 512).monoDsp.sampleSize =
      (if stringMatch factoryA.json.compile_options "-double" then 8 else 4) :=
  ⟨by decide,
   (C5_sample_size_resolution ctxOK [] "osc" factoryD factoryD mixerM 8 none
      false 1024 48000).1 (.audioWorkletNode "osc3" factoryD 8) (by decide),
   (C5_sample_size_resolution ctxOK [] "osc" factoryA factoryA mixerM 8 none
      false 512 48000).2.2⟩

/-- Helper: `FaustPolyDspGenerator.compileNode` never writes the generator
object (it only reads the compiler and the registry). -/
theorem polyCompileNode_fst (self : FaustPolyDspGenerator)
    (context : BaseAudioContext) (reg : List String) (name : String)
    (compiler : IFaustCompiler) (dspCode : String) (effectCode : Option String)
    (args : String) (voices : Nat) (sp : Bool) (bufferSize : Nat) :
    (self.compileNode context reg name compiler dspCode effectCode args voices
      sp bufferSize).1 = self := by
  simp only [FaustPolyDspGenerator.compileNode]
  cases hv : compiler.createPolyDSPFactory name dspCode args with
  | none => rfl
  | some voiceFactory =>
      cases hm : compiler.getAsyncInternalMixerModule
          (stringMatch voiceFactory.json.compile_options "-double") with
      | none => simp [hm]
      | some mixerModule => simp [hm]

/-- Helper: one call on a poly generator leaves the object unchanged. -/
theorem runPolyOp_fst (st : FaustPolyDspGenerator × List String) (op : PolyOp) :
    (runPolyOp st op).1 = st.1 := by
  cases op with
  | compile context name compiler dspCode effectCode args voices sp bufferSize =>
      simpa [runPolyOp] using
        polyCompileNode_fst st.1 context st.2 name compiler dspCode effectCode
          args voices sp bufferSize
  | create context name voiceFactory mixerModule voices sp effectFactory bufferSize =>
      rfl

/-- Helper: any call sequence on a poly generator leaves the object
unchanged. -/
theorem runPolyOps_fst (ops : List PolyOp) :
    ∀ st : FaustPolyDspGenerator × List String, (runPolyOps ops st).1 = st.1 := by
  induction ops with
  | nil => intro st; rfl
  | cons op rest ih =>
      intro st
      calc (runPolyOps (op :: rest) st).1
          = (runPolyOps rest (runPolyOp st op)).1 := rfl
        _ = (runPolyOp st op).1 := ih _
        _ = st.1 := runPolyOp_fst st op

/-- Claim C6: `compileNode` is a pass-through to the external compiler: the
mono generator's `fFactory` is exactly the compiler's result, and when the
compiler returns no factory for the mono (or poly voice) DSP code,
`compileNode` returns null, constructs no node, touches no registry and
performs no registration. -/
theorem C6_compile_passthrough_failure_null
    (self : FaustMonoDspGenerator) (selfP : FaustPolyDspGenerator)
    (context : BaseAudioContext) (reg : List String) (name : String)
    (compiler : IFaustCompiler) (code dspCode : String)
    (effectCode : Option String) (args : String) (voices : Nat)
    (sp : Bool) (bufferSize : Nat) :
    ((self.compileNode context reg name compiler code args sp bufferSize).1.fFactory =
      compiler.createMonoDSPFactory name code args) ∧
    (compiler.createMonoDSPFactory name code args = none →
      (self.compileNode context reg name compiler code args sp bufferSize).2 =
        ⟨none, reg, 0⟩) ∧
    (compiler.createPolyDSPFactory name dspCode args = none →
      (selfP.compileNode context reg name compiler dspCode effectCode args voices sp bufferSize).2 =
        ⟨none, reg, 0⟩) := by
  refine ⟨?_, ?_, ?_⟩
  · cases hf : compiler.createMonoDSPFactory name code args <;>
      simp [FaustMonoDspGenerator.compileNode, hf]
  · intro hf
    simp [FaustMonoDspGenerator.compileNode, hf]
  · intro hf
    simp [FaustPolyDspGenerator.compileNode, hf]

/-- Concrete witness for C6: against the always-failing compiler, mono
`compileNode` records the null factory and returns null with no
registration. -/
theorem C6_witness :
    compilerFail.createMonoDSPFactory "osc" "process = _;" "-ct 1" = none ∧
    ((FaustMonoDspGenerator.init).compileNode ctxOK [] "osc" compilerFail
      "process = _;" "-ct 1" false 1024).2 = ⟨none, [], 0⟩ ∧
    ((FaustMonoDspGenerator.init).compileNode ctxOK [] "osc" compilerFail
      "process = _;" "-ct 1" false 1024).1.fFactory = none :=
  ⟨rfl,
   (C6_compile_passthrough_failure_null FaustMonoDspGenerator.init
      FaustPolyDspGenerator.init ctxOK [] "osc" compilerFail "process = _;"
      "process = _;" none "-ct 1" 8 false 1024).2.1 rfl,
   (C6_compile_passthrough_failure_null FaustMonoDspGenerator.init
      FaustPolyDspGenerator.init ctxOK [] "osc" compilerFail "process = _;"
      "process = _;" none "-ct 1" 8 false 1024).1⟩

/-- Claim C7: with the block-synchronous backend selected (sp = true), the
Runtime Instance is constructed directly in the caller's context and wrapped
in a script-processor node adapter, the worklet registry is left completely
unchanged and `addModule` is never invoked.  Mono and poly. -/
theorem C7_script_processor_path_no_registration
    (context : BaseAudioContext) (reg : List String) (nameIn : String)
    (factory voiceFactory : FaustDspFactory) (mixerModule : WebAssemblyModule)
    (voices : Nat) (effectFactory : Option FaustDspFactory) (bufferSize : Nat) :
    (FaustMonoDspGenerator.createNode context reg nameIn factory true bufferSize) =
      ⟨some (.scriptProcessor
          ⟨createAsyncMonoDSPInstance factory, context.sampleRate,
            (if stringMatch factory.json.compile_options "-double" then 8 else 4),
            bufferSize⟩ bufferSize),
        reg, 0⟩ ∧
    (FaustPolyDspGenerator.createNode context reg nameIn voiceFactory mixerModule
        voices true effectFactory bufferSize) =
      ⟨some (.scriptProcessor
          ⟨createAsyncPolyDSPInstance voiceFactory mixerModule voices effectFactory,
            context.sampleRate,
            (if stringMatch voiceFactory.json.compile_options "-double" then 8 else 4),
            bufferSize⟩ bufferSize),
        reg, 0⟩ :=
  ⟨rfl, rfl⟩

/-- Claim C8: a node built from a valid CompiledModule reports
`getNumInputs`/`getNumOutputs` equal to the channel counts declared in the
module's metadata (the voice module's metadata for poly); the counts are a
pure function of the immutable node value fixed at construction. -/
theorem C8_channel_counts_from_metadata
    (context : BaseAudioContext) (reg : List String) (nameIn : String)
    (factory voiceFactory : FaustDspFactory) (mixerModule : WebAssemblyModule)
    (voices : Nat) (effectFactory : Option FaustDspFactory)
    (sp : Bool) (bufferSize : Nat) :
    (∀ node, (FaustMonoDspGenerator.createNode context reg nameIn factory sp bufferSize).node = some node →
      node.getNumInputs = factory.json.numInputs ∧
      node.getNumOutputs = factory.json.numOutputs) ∧
    (∀ node, (FaustPolyDspGenerator.createNode context reg nameIn voiceFactory mixerModule voices sp effectFactory bufferSize).node = some node →
      node.getNumInputs = voiceFactory.json.numInputs ∧
      node.getNumOutputs = voiceFactory.json.numOutputs) := by
  constructor
  · intro node hnode
    cases sp with
    | true =>
        simp [FaustMonoDspGenerator.createNode] at hnode
        subst hnode
        simp [FaustMonoWebAudioNode.getNumInputs, FaustMonoWebAudioNode.getNumOutputs,
          FaustMonoWebAudioDsp.getNumInputs, FaustMonoWebAudioDsp.getNumOutputs,
          createAsyncMonoDSPInstance]
    | false =>
        by_cases h : (nameIn ++ toString factory.cfactory) ∈ reg
        · simp [FaustMonoDspGenerator.createNode, h] at hnode
          subst hnode
          simp [FaustMonoWebAudioNode.getNumInputs, FaustMonoWebAudioNode.getNumOutputs]
        · by_cases hok : context.addModuleOk = true
          · simp [FaustMonoDspGenerator.createNode, h, hok] at hnode
            subst hnode
            simp [FaustMonoWebAudioNode.getNumInputs, FaustMonoWebAudioNode.getNumOutputs]
          · simp [FaustMonoDspGenerator.createNode, h, hok] at hnode
  · intro node hnode
    cases sp with
    | true =>
        simp [FaustPolyDspGenerator.createNode] at hnode
        subst hnode
        simp [FaustPolyWebAudioNode.getNumInputs, FaustPolyWebAudioNode.getNumOutputs,
          FaustPolyWebAudioDsp.getNumInputs, FaustPolyWebAudioDsp.getNumOutputs,
          createAsyncPolyDSPInstance]
    | false =>
        by_cases h : (nameIn ++ toString voiceFactory.cfactory ++ "_poly") ∈ reg
        · simp [FaustPolyDspGenerator.createNode, h] at hnode
          subst hnode
          simp [FaustPolyWebAudioNode.getNumInputs, FaustPolyWebAudioNode.getNumOutputs]
        · by_cases hok : context.addModuleOk = true
          · simp [FaustPolyDspGenerator.createNode, h, hok] at hnode
            subst hnode
            simp [FaustPolyWebAudioNode.getNumInputs, FaustPolyWebAudioNode.getNumOutputs]
          · simp [FaustPolyDspGenerator.createNode, h, hok] at hnode

/-- Concrete witness for C8: the script-processor node built from `factoryA`
(declared 1 input, 2 outputs) reports those counts. -/
theorem C8_witness :
    (FaustMonoDspGenerator.createNode ctxOK [] "osc" factoryA true 512).node =
      some (.scriptProcessor ⟨⟨factoryA⟩, 44100, 4, 512⟩ 512) ∧
    (FaustMonoWebAudioNode.scriptProcessor ⟨⟨factoryA⟩, 44100, 4, 512⟩ 512).getNumInputs =
      factoryA.json.numInputs ∧
    (FaustMonoWebAudioNode.scriptProcessor ⟨⟨factoryA⟩, 44100, 4, 512⟩ 512).getNumOutputs =
      factoryA.json.numOutputs :=
  ⟨by decide,
   ((C8_channel_counts_from_metadata ctxOK [] "osc" factoryA factoryA mixerM 8
      none true 512).1 (.scriptProcessor ⟨⟨factoryA⟩, 44100, 4, 512⟩ 512) (by decide)).1,
   ((C8_channel_counts_from_metadata ctxOK [] "osc" factoryA factoryA mixerM 8
      none true 512).1 (.scriptProcessor ⟨⟨factoryA⟩, 44100, 4, 512⟩ 512) (by decide)).2⟩

/-- Claim C9: for every poly generator created fresh, after any sequence of
`compileNode` and `createNode` calls (successful or not, from any starting
registry), `getVoiceFactory` and `getEffectFactory` still return null: the
constructor nulls `fVoiceFactory` and `fEffectFactory` and no method ever
assigns them. -/
theorem C9_poly_factories_never_assigned (ops : List PolyOp) (reg : List String) :
    (runPolyOps ops (FaustPolyDspGenerator.init, reg)).1.getVoiceFactory = none ∧
    (runPolyOps ops (FaustPolyDspGenerator.init, reg)).1.getEffectFactory = none := by
  rw [FaustPolyDspGenerator.getVoiceFactory, FaustPolyDspGenerator.getEffectFactory,
    runPolyOps_fst ops (FaustPolyDspGenerator.init, reg)]
  exact ⟨rfl, rfl⟩

/-- Counterexample to claim C10: against `compilerPolyOK` the voice factory
compiles (to `factoryA`) and the mixer module loads (`mixerM`), yet
`compileNode` against the registration-refusing context `ctxBad` (sp falsy,
empty registry) still returns null — so "returns null only when the voice
compilation or the mixer module loading fails" is false on the code. -/
theorem C10_counterexample :
    compilerPolyOK.createPolyDSPFactory "poly" "process = _;" "-ct 1" = some factoryA ∧
    compilerPolyOK.getAsyncInternalMixerModule
      (stringMatch factoryA.json.compile_options "-double") = some mixerM ∧
    ((FaustPolyDspGenerator.init).compileNode ctxBad [] "poly" compilerPolyOK
      "process = _;" none "-ct 1" 8 false 1024).2.node = none :=
  ⟨rfl, rfl, rfl⟩

/-- Claim C10 amended: failure to compile the effect DSP is tolerated — if
the voice factory compiles and the mixer module loads, and the subsequent
`createNode` succeeds (script-processor path, registration accepted, or key
already cached), a node is produced with the effect factory absent; the call
returns null only when the voice compilation fails, the mixer module loading
fails, or the subsequent `createNode` itself fails (worklet registration
refused for a not-yet-cached key). -/
theorem C10_amended_effect_failure_tolerated
    (self : FaustPolyDspGenerator) (context : BaseAudioContext)
    (reg : List String) (name : String) (compiler : IFaustCompiler)
    (dspCode : String) (effectCode : Option String) (args : String)
    (voices : Nat) (sp : Bool) (bufferSize : Nat) :
    (∀ vf mm, compiler.createPolyDSPFactory name dspCode args = some vf →
      compiler.getAsyncInternalMixerModule
        (stringMatch vf.json.compile_options "-double") = some mm →
      compiler.createPolyDSPFactory name
        (jsOrElse effectCode (polyDefaultEffectCode dspCode)) args = none →
      (sp = true ∨ context.addModuleOk = true ∨
        (name ++ toString vf.cfactory ++ "_poly") ∈ reg) →
      ∃ node,
        (self.compileNode context reg name compiler dspCode effectCode args
          voices sp bufferSize).2.node = some node ∧
        node.effectFactoryOf = none) ∧
    ((self.compileNode context reg name compiler dspCode effectCode args voices
        sp bufferSize).2.node = none →
      compiler.createPolyDSPFactory name dspCode args = none ∨
      (∃ vf, compiler.createPolyDSPFactory name dspCode args = some vf ∧
        compiler.getAsyncInternalMixerModule
          (stringMatch vf.json.compile_options "-double") = none) ∨
      (∃ vf, compiler.createPolyDSPFactory name dspCode args = some vf ∧
        sp = false ∧ context.addModuleOk = false ∧
        (name ++ toString vf.cfactory ++ "_poly") ∉ reg)) := by
  constructor
  · intro vf mm hv hm he hcond
    cases sp with
    | true =>
        refine ⟨.scriptProcessor
          ⟨createAsyncPolyDSPInstance vf mm voices none, context.sampleRate,
            (if stringMatch vf.json.compile_options "-double" then 8 else 4),
            bufferSize⟩ bufferSize, ?_, ?_⟩
        · simp [FaustPolyDspGenerator.compileNode, hv, hm, he,
            FaustPolyDspGenerator.createNode]
        · simp [FaustPolyWebAudioNode.effectFactoryOf, createAsyncPolyDSPInstance]
    | false =>
        rcases hcond with hsp | hok | hmem
        · exact absurd hsp (by simp)
        · by_cases hmem : (name ++ toString vf.cfactory ++ "_poly") ∈ reg
          · refine ⟨.audioWorkletNode (name ++ toString vf.cfactory ++ "_poly")
              vf mm voices
              (if stringMatch vf.json.compile_options "-double" then 8 else 4)
              none, ?_, ?_⟩
            · simp [FaustPolyDspGenerator.compileNode, hv, hm, he,
                FaustPolyDspGenerator.createNode, hmem]
            · simp [FaustPolyWebAudioNode.effectFactoryOf]
          · refine ⟨.audioWorkletNode (name ++ toString vf.cfactory ++ "_poly")
              vf mm voices
              (if stringMatch vf.json.compile_options "-double" then 8 else 4)
              none, ?_, ?_⟩
            · simp [FaustPolyDspGenerator.compileNode, hv, hm, he,
                FaustPolyDspGenerator.createNode, hmem, hok]
            · simp [FaustPolyWebAudioNode.effectFactoryOf]
        · refine ⟨.audioWorkletNode (name ++ toString vf.cfactory ++ "_poly")
            vf mm voices
            (if stringMatch vf.json.compile_options "-double" then 8 else 4)
            none, ?_, ?_⟩
          · simp [FaustPolyDspGenerator.compileNode, hv, hm, he,
              FaustPolyDspGenerator.createNode, hmem]
          · simp [FaustPolyWebAudioNode.effectFactoryOf]
  · intro hnull
    cases hv : compiler.createPolyDSPFactory name dspCode args with
    | none => exact Or.inl rfl
    | some vf =>
        cases hm : compiler.getAsyncInternalMixerModule
            (stringMatch vf.json.compile_options "-double") with
        | none => exact Or.inr (Or.inl ⟨vf, rfl, hm⟩)
        | some mm =>
            cases sp with
            | true =>
                exfalso
                simp [FaustPolyDspGenerator.compileNode, hv, hm,
                  FaustPolyDspGenerator.createNode] at hnull
            | false =>
                by_cases hmem : (name ++ toString vf.cfactory ++ "_poly") ∈ reg
                · exfalso
                  simp [FaustPolyDspGenerator.compileNode, hv, hm,
                    FaustPolyDspGenerator.createNode, hmem] at hnull
                · by_cases hok : context.addModuleOk = true
                  · exfalso
                    simp [FaustPolyDspGenerator.compileNode, hv, hm,
                      FaustPolyDspGenerator.createNode, hmem, hok] at hnull
                  · exact Or.inr (Or.inr ⟨vf, rfl, rfl,
                      Bool.not_eq_true _ ▸ hok, hmem⟩)

/-- Concrete witness for the amended C10: against `compilerEffectFails` the
voice compiles, the effect fails to compile, the mixer loads, registration
is accepted by `ctxOK`, and a node is produced carrying no effect factory. -/
theorem C10_witness :
    compilerEffectFails.createPolyDSPFactory "poly" "process = _;" "-ct 1" = some factoryA ∧
    compilerEffectFails.getAsyncInternalMixerModule
      (stringMatch factoryA.json.compile_options "-double") = some mixerM ∧
    compilerEffectFails.createPolyDSPFactory "poly"
      (jsOrElse none (polyDefaultEffectCode "process = _;")) "-ct 1" = none ∧
    (∃ node,
      ((FaustPolyDspGenerator.init).compileNode ctxOK [] "poly"
        compilerEffectFails "process = _;" none "-ct 1" 8 false 1024).2.node = some node ∧
      node.effectFactoryOf = none) :=
  ⟨rfl, rfl, by decide,
   (C10_amended_effect_failure_tolerated FaustPolyDspGenerator.init ctxOK []
      "poly" compilerEffectFails "process = _;" none "-ct 1" 8 false 1024).1
     factoryA mixerM rfl rfl (by decide) (Or.inr (Or.inl rfl))⟩
